import Mathlib

/-!
Shallow embedding of the beets-metalarchives plugin (`src/metalarchives.py`),
a Metal Archives metadata adapter for the beets autotagger.

Modelling conventions:
  * External numeric ids are modelled as their decimal strings (Python applies
    `str()` before prefixing), so all ids are `String`.
  * The external `metallum` client, the `iso3166` country table and the host's
    `string_dist` utility are collaborators, modelled as an `Env` of oracle
    functions.  A call that can raise `metallum.NetworkError` is modelled as
    returning `Except Unit α` (`.error ()` = NetworkError raised).
  * `iso3166.countries.get` raises `KeyError` on a miss; it is modelled as an
    `Option`-returning oracle.
  * String distances are modelled as exact rationals (the comparison against
    the literal threshold `0.1` is exact at the values the claims use).
  * Side effects (external calls, item mutation, `try_write`, `store`) are
    recorded in an explicit trace of `Eff` events; logging is elided.
  * Python truthiness of a lyrics string is `≠ ""`.
-/

namespace MetalArchives

/-- Constant `DATA_SOURCE = 'Metal Archives'`. -/
def DATA_SOURCE : String := "Metal Archives"

/-- Constant `ID_PREFIX = 'ma-'`. -/
def ID_PREFIX : String := "ma-"

/-- Source function `_add_prefix(id)`: `return ID_PREFIX + str(id)` (ids are modelled already
as strings). -/
def _add_prefix (id : String) : String :=
  ID_PREFIX ++ id

/-- Source function `_strip_prefix(id)`: `return id[len(ID_PREFIX):]`. -/
def _strip_prefix (id : String) : String :=
  id.drop ID_PREFIX.length

/-- Source function `_is_source_id(id)`: `return id[:len(ID_PREFIX)] == ID_PREFIX`. -/
def _is_source_id (id : String) : Bool :=
  id.take ID_PREFIX.length == ID_PREFIX

/-! ## Data model: external (metallum / iso3166) objects and host records -/

/-- A metallum band object (the fields the plugin reads). -/
structure MBand where
  id : String
  name : String
  country : String
deriving DecidableEq, Repr

deriving instance DecidableEq for Except

/-- A metallum track object.  `track.lyrics` is a lazy property whose access
performs a network fetch and may raise `NetworkError`, hence `Except Unit`. -/
structure MTrack where
  id : String
  title : String
  band : MBand
  duration : Nat
  overall_number : Nat
  disc_number : Nat
  number : Nat
  lyrics : Except Unit String
deriving DecidableEq, Repr

/-- A metallum album object.  The plugin only ever reads `album.bands[0]`, so
that first band is modelled directly as `bands0` (metallum albums always carry
at least one band). `date.month`/`date.day` are flattened into `month`/`day`. -/
structure MAlbum where
  id : String
  title : String
  bands0 : MBand
  band_names : String
  tracks : List MTrack
  type : String
  year : Int
  month : Nat
  day : Nat
  label : String
  disc_count : Nat
  url : String
deriving DecidableEq, Repr

/-- A metallum search result handle; `result.get()` resolves it to a full
album record and may raise `NetworkError`. -/
structure SearchResult where
  get : Except Unit MAlbum
deriving DecidableEq, Repr

/-- An iso3166 country table entry (only `alpha2` is read). -/
structure Country where
  alpha2 : String
deriving DecidableEq, Repr

/-- The host's `TrackInfo` record, as built by `get_track_info`. -/
structure TrackInfo where
  title : String
  track_id : String
  artist : String
  artist_id : String
  length : Nat
  index : Nat
  medium : Nat
  medium_index : Nat
deriving DecidableEq, Repr

/-- The host's `AlbumInfo` record, as built by `get_album_info`. -/
structure AlbumInfo where
  album : String
  album_id : String
  artist : String
  artist_id : String
  tracks : List TrackInfo
  albumtype : String
  va : Bool
  year : Int
  month : Nat
  day : Nat
  label : String
  mediums : Nat
  country : String
  data_source : String
  data_url : String
deriving DecidableEq, Repr

/-- A library item (track) being processed, with the fields
`fetch_item_lyrics` reads.  `track` is the 1-based track position. -/
structure Item where
  lyrics : String
  mb_albumid : String
  mb_trackid : String
  artist : String
  album : String
  title : String
  year : Int
  track : Nat
deriving DecidableEq, Repr

/-- The plugin configuration options plus the host's global
`config['import']['write']` flag. -/
structure Config where
  source_weight : ℚ
  lyrics : Bool
  lyrics_search : Bool
  instrumental : String
  import_write : Bool

/-- The external collaborators: the metallum client (each callsite's shape of
`album_search` gets its own oracle field), the iso3166 table, the host's
`string_dist`, and `metallum.BASE_URL`. -/
structure Env where
  album_search : String → String → Except Unit (List SearchResult)
  album_search_year : String → String → Int → Int → Except Unit (List SearchResult)
  album_for_id : String → Except Unit MAlbum
  lyrics_for_id : String → Except Unit String
  countries_get : String → Option Country
  string_dist : String → String → ℚ
  base_url : String

/-- An observable side effect: an external call, or a mutation of the item. -/
inductive Eff where
  | callLyricsForId (id : String)
  | callAlbumSearchYear (album band : String) (yearFrom yearTo : Int)
  | callAlbumForId (id : String)
  | callResultGet
  | callTrackLyrics
  | setLyrics (s : String)
  | tryWrite
  | store
deriving DecidableEq, Repr

/-! ## Record mapping (`get_track_info`, `get_tracks`, `get_album_info`) -/

/-- Method `get_track_info(track)`: maps a metallum track to a host `TrackInfo`. -/
def get_track_info (track : MTrack) : TrackInfo :=
  let track_id := _add_prefix track.id
  let artist_id := _add_prefix track.band.id
  { title := track.title, track_id := track_id, artist := track.band.name,
    artist_id := artist_id, length := track.duration,
    index := track.overall_number, medium := track.disc_number,
    medium_index := track.number }

/-- Method `get_tracks(tracklist)`: maps each metallum track. -/
def get_tracks : List MTrack → List TrackInfo
  | [] => []
  | track :: rest => get_track_info track :: get_tracks rest

/-- Method `get_album_info(album)`: maps a metallum album to a host `AlbumInfo`;
`countries.get(artist.country).alpha2` with `except KeyError: country = ''`. -/
def get_album_info (env : Env) (album : MAlbum) : AlbumInfo :=
  let artist := album.bands0
  let tracks := get_tracks album.tracks
  let album_id := _add_prefix album.id
  let artist_id := _add_prefix artist.id
  let country :=
    match env.countries_get artist.country with
    | some c => c.alpha2
    | none => ""
  { album := album.title, album_id := album_id, artist := album.band_names,
    artist_id := artist_id, tracks := tracks, albumtype := album.type,
    va := false, year := album.year, month := album.month, day := album.day,
    label := album.label, mediums := album.disc_count, country := country,
    data_source := DATA_SOURCE, data_url := env.base_url ++ "/" ++ album.url }

/-! ## Search (`get_albums`, `candidates`) and id lookup (`album_for_id`) -/

/-- The result-resolution loop of `get_albums`: `result.get()` with
`except NetworkError: continue`, else append `get_album_info(album)`. -/
def resolveResults (env : Env) : List SearchResult → List AlbumInfo
  | [] => []
  | r :: rest =>
    match r.get with
    | .error _ => resolveResults env rest
    | .ok album => get_album_info env album :: resolveResults env rest

/-- Method `get_albums(artist, album)`.  NOTE: on `NetworkError` from
`metallum.album_search` the source executes a bare `return`, i.e. it returns
Python `None` (modelled `none`), not the empty list. -/
def get_albums (env : Env) (artist album : String) : Option (List AlbumInfo) :=
  match env.album_search album artist with
  | .error _ => none
  | .ok results => some (resolveResults env results)

/-- Method `candidates(items, artist, album, va_likely)`: delegates to `get_albums`
(`items` and `va_likely` are unused by the source). -/
def candidates (env : Env) (artist album : String) : Option (List AlbumInfo) :=
  get_albums env artist album

/-- Method `album_for_id(album_id)`, returning the result together with the trace of
external calls it made. -/
def album_for_id (env : Env) (album_id : String) : Option AlbumInfo × List Eff :=
  if _is_source_id album_id then
    match env.album_for_id ( _strip_prefix album_id) with
    | .error _ => (none, [Eff.callAlbumForId ( _strip_prefix album_id)])
    | .ok result =>
      (some (get_album_info env result), [Eff.callAlbumForId ( _strip_prefix album_id)])
  else
    (none, [])

/-! ## Lyrics fetch (`fetch_item_lyrics`) -/

/-- The fixed instrumental marker string compared against fetched lyrics. -/
def instrumentalMarker : String := "(<em>Instrumental</em>)"

/-- The tail of `fetch_item_lyrics` (source lines 128-139): `if lyrics:`
substitute the instrumental marker, assign `item.lyrics`, optionally
`try_write`, then `store`; otherwise leave the item untouched. -/
def fetchTail (cfg : Config) (item : Item) (lyrics : String) (trace : List Eff) :
    Item × List Eff :=
  if lyrics ≠ "" then
    let lyr := if lyrics = instrumentalMarker then cfg.instrumental else lyrics
    ({ item with lyrics := lyr },
      trace ++ [Eff.setLyrics lyr]
        ++ (if cfg.import_write then [Eff.tryWrite] else []) ++ [Eff.store])
  else
    (item, trace)

/-- Outcome of the candidate loop in the fallback lyrics search: fall through
to the tail with the current `lyrics` value, return early from the whole
function (caught `NetworkError` on a candidate's lyrics fetch), or propagate
an uncaught exception (from `result.get()`, which the source does not wrap). -/
inductive LoopOut where
  | done (lyrics : String) (trace : List Eff)
  | ret (trace : List Eff)
  | raised
deriving DecidableEq, Repr

/-- The candidate loop of the fallback lyrics search (source lines 109-124).
For each result: resolve it (`result.get()`, uncaught on fault); if the album
has at least `item.track` tracks, take the track at index `item.track - 1`
(1-based positions; Python's negative indexing at position 0 is not modelled),
compute the string distance to the item title, skip the candidate if it
exceeds 0.1 (the literal `0.1` is modelled as the exact rational
`mkRat 1 10`), otherwise fetch the candidate track's lyrics — a
`NetworkError` there returns from the whole function — and continue the loop
with that lyrics value (the source has no `break`). -/
def searchLoop (env : Env) (item : Item) :
    List SearchResult → String → List Eff → LoopOut
  | [], lyrics, trace => .done lyrics trace
  | r :: rest, lyrics, trace =>
    match r.get with
    | .error _ => .raised
    | .ok album =>
      let trace1 := trace ++ [Eff.callResultGet]
      if item.track ≤ album.tracks.length then
        match album.tracks.get? (item.track - 1) with
        | some trk =>
          if env.string_dist item.title trk.title > mkRat 1 10 then
            searchLoop env item rest lyrics trace1
          else
            match trk.lyrics with
            | .error _ => .ret (trace1 ++ [Eff.callTrackLyrics])
            | .ok l => searchLoop env item rest l (trace1 ++ [Eff.callTrackLyrics])
        | none => searchLoop env item rest lyrics trace1
      else
        searchLoop env item rest lyrics trace1

/-- Method `fetch_item_lyrics(item)`: returns the updated item and the trace of
effects; `.error ()` models an uncaught `NetworkError` propagating (only
possible from `result.get()` inside the fallback search loop). -/
def fetch_item_lyrics (cfg : Config) (env : Env) (item : Item) :
    Except Unit (Item × List Eff) :=
  if item.lyrics ≠ "" then
    .ok (item, [])
  else if _is_source_id item.mb_albumid then
    let track_id := _strip_prefix item.mb_trackid
    match env.lyrics_for_id track_id with
    | .error _ => .ok (item, [Eff.callLyricsForId track_id])
    | .ok l => .ok (fetchTail cfg item l [Eff.callLyricsForId track_id])
  else if cfg.lyrics_search then
    let searchEff := Eff.callAlbumSearchYear item.album item.artist item.year item.year
    match env.album_search_year item.album item.artist item.year item.year with
    | .error _ => .ok (item, [searchEff])
    | .ok results =>
      match searchLoop env item results "" [searchEff] with
      | .raised => .error ()
      | .ret trace => .ok (item, trace)
      | .done l trace => .ok (fetchTail cfg item l trace)
  else
    .ok (item, [])

/-- The lyrics of the accepted candidates of the fallback search, in result
order: a candidate is accepted when it resolves, has at least `item.track`
tracks, its track at that position is within distance 0.1 of the item title,
and its lyrics fetch succeeds.  This restates the loop's per-candidate test;
the substantive fact (proved below) is that the loop's final lyrics value is
the LAST element of this list, not the first. -/
def acceptedLyrics (env : Env) (item : Item) (results : List SearchResult) :
    List String :=
  results.filterMap fun r =>
    match r.get with
    | .error _ => none
    | .ok album =>
      if item.track ≤ album.tracks.length then
        match album.tracks.get? (item.track - 1) with
        | some trk =>
          if env.string_dist item.title trk.title > mkRat 1 10 then none
          else
            match trk.lyrics with
            | .error _ => none
            | .ok l => some l
        | none => none
      else none

/-! ## Concrete fixtures used by witnesses and counterexamples -/

/-- Default configuration (the values `__init__` registers). -/
def cfg0 : Config :=
  { source_weight := 1, lyrics := false, lyrics_search := false,
    instrumental := "", import_write := false }

/-- A baseline environment in which every external call fails with
`NetworkError` and every country lookup misses. -/
def env0 : Env :=
  { album_search := fun _ _ => .error ()
    album_search_year := fun _ _ _ _ => .error ()
    album_for_id := fun _ => .error ()
    lyrics_for_id := fun _ => .error ()
    countries_get := fun _ => none
    string_dist := fun _ _ => 0
    base_url := "https://www.metal-archives.com" }

/-- An environment whose search succeeds with zero results. -/
def envNoResults : Env := { env0 with album_search := fun _ _ => .ok [] }

def bandA : MBand := { id := "7", name := "BandA", country := "United States" }

def trackA : MTrack :=
  { id := "21", title := "Song", band := bandA, duration := 300,
    overall_number := 1, disc_number := 1, number := 1, lyrics := .ok "AAA" }

def trackB : MTrack := { trackA with id := "22", lyrics := .ok "BBB" }

def albumA : MAlbum :=
  { id := "11", title := "AlbumA", bands0 := bandA, band_names := "BandA",
    tracks := [trackA], type := "Full-length", year := 1986, month := 3,
    day := 3, label := "LabelA", disc_count := 1, url := "albums/BandA/AlbumA/11" }

def albumB : MAlbum := { albumA with id := "12", tracks := [trackB] }

def res4a : SearchResult := { get := .ok albumA }

def res4b : SearchResult := { get := .ok albumB }

def resBad : SearchResult := { get := .error () }

def resultsC4 : List SearchResult := [res4a, res4b]

/-- An environment whose search yields a good result, a result whose
resolution faults, then another good result. -/
def env8 : Env := { env0 with album_search := fun _ _ => .ok [res4a, resBad, res4b] }

/-- An environment for the fallback lyrics search: the year-restricted search
returns two resolvable candidates and every string distance is 0. -/
def envC4 : Env := { env0 with album_search_year := fun _ _ _ _ => .ok resultsC4 }

def cfgC4 : Config := { cfg0 with lyrics_search := true }

/-- A non-source item (album id `"mb-1"` lacks the `"ma-"` prefix) at track
position 1. -/
def itemC4 : Item :=
  { lyrics := "", mb_albumid := "mb-1", mb_trackid := "mb-2", artist := "BandA",
    album := "AlbumA", title := "Song", year := 1986, track := 1 }

def itemWithLyrics : Item := { itemC4 with lyrics := "some lyrics" }

/-- A source-matched item: both ids carry the `"ma-"` prefix. -/
def itemSourceTrack : Item :=
  { itemC4 with mb_albumid := "ma-123", mb_trackid := "ma-456" }

/-- A source-matched album id but a track id that does not carry the prefix. -/
def itemOddTrackId : Item := { itemSourceTrack with mb_trackid := "ab-99" }

/-- An environment whose direct lyrics fetch returns the instrumental
marker. -/
def envC5 : Env := { env0 with lyrics_for_id := fun _ => .ok instrumentalMarker }

def cfgC5 : Config := { cfg0 with instrumental := "Instrumental" }

/-! ## Theorems -/

/-! ### Helper lemmas about `fetchTail` and `resolveResults` -/

/-- Effects already in the trace survive `fetchTail`. -/
theorem fetchTail_mem (cfg : Config) (item : Item) (l : String) (tr0 : List Eff)
    (e : Eff) (he : e ∈ tr0) : e ∈ (fetchTail cfg item l tr0).2 := by
  unfold fetchTail
  split
  · simp [he]
  · simpa using he

/-- Lemma: `fetchTail` adds no search call to the trace. -/
theorem fetchTail_no_search (cfg : Config) (item : Item) (l : String)
    (tr0 : List Eff) (al ar : String) (y1 y2 : Int)
    (h : Eff.callAlbumSearchYear al ar y1 y2 ∉ tr0) :
    Eff.callAlbumSearchYear al ar y1 y2 ∉ (fetchTail cfg item l tr0).2 := by
  unfold fetchTail
  split
  · intro hmem
    simp only [List.mem_append, List.mem_singleton] at hmem
    rcases hmem with ((hmem | hmem) | hmem) | hmem
    · exact h hmem
    · cases hmem
    · split at hmem <;> simp at hmem
    · cases hmem
  · simpa using h

/-- Lemma: `fetchTail` preserves the head of a nonempty trace. -/
theorem fetchTail_head (cfg : Config) (item : Item) (l : String) (e : Eff)
    (tr0 : List Eff) :
    ((fetchTail cfg item l (e :: tr0)).2).head? = some e := by
  unfold fetchTail
  split <;> simp

/-- Lemma: `resolveResults` distributes over list append. -/
theorem resolveResults_append (env : Env) (l1 l2 : List SearchResult) :
    resolveResults env (l1 ++ l2) = resolveResults env l1 ++ resolveResults env l2 := by
  induction l1 with
  | nil => rfl
  | cons r rest ih =>
    cases h : r.get <;> simp [resolveResults, h, ih]

/-! ### Claim theorems -/

/-- C2 (code evaluation): on a `NetworkError` from the external search,
`get_albums` — and hence `candidates` — returns Python `None` (`none`), which
is not the empty sequence the claim states; only a zero-result search yields
the empty list. -/
theorem C2_network_fault_evaluation :
    get_albums env0 "Metallica" "Master of Puppets" = none ∧
    candidates env0 "Metallica" "Master of Puppets" = none ∧
    (none : Option (List AlbumInfo)) ≠ some [] ∧
    get_albums envNoResults "Metallica" "Master of Puppets" = some [] :=
  ⟨rfl, rfl, by simp, rfl⟩

/-- C3: `album_for_id` on an unprefixed id returns not-found with no external
call at all; on a prefixed id the single external call is the id lookup on the
prefix-stripped id, and a network fault during it yields not-found. -/
theorem C3_album_for_id_contract (env : Env) (id : String) :
    ( _is_source_id id = false → album_for_id env id = (none, [])) ∧
    ( _is_source_id id = true →
      (album_for_id env id).2 = [Eff.callAlbumForId ( _strip_prefix id)] ∧
      (env.album_for_id ( _strip_prefix id) = .error () →
        (album_for_id env id).1 = none)) := by
  constructor
  · intro h
    simp [album_for_id, h]
  · intro h
    refine ⟨?_, ?_⟩
    · cases he : env.album_for_id ( _strip_prefix id) <;>
        simp [album_for_id, h, he]
    · intro he
      simp [album_for_id, h, he]

/-- Witness for C3 at the unprefixed id `"zzz"` and the prefixed id
`"ma-5"` (whose lookup faults in `env0`). -/
theorem C3_album_for_id_contract_witness :
    album_for_id env0 "zzz" = (none, []) ∧ (album_for_id env0 "ma-5").1 = none :=
  ⟨(C3_album_for_id_contract env0 "zzz").1 (by decide),
   ((C3_album_for_id_contract env0 "ma-5").2 (by decide)).2 rfl⟩

/-- C6: when the item already has non-empty lyrics, `fetch_item_lyrics` is a
no-op: no external call, no mutation, no write, no store. -/
theorem C6_skip_when_lyrics_present (cfg : Config) (env : Env) (item : Item)
    (h : item.lyrics ≠ "") :
    fetch_item_lyrics cfg env item = .ok (item, []) := by
  simp [fetch_item_lyrics, h]

/-- Witness for C6 on an item that already has lyrics. -/
theorem C6_skip_when_lyrics_present_witness :
    fetch_item_lyrics cfg0 env0 itemWithLyrics = .ok (itemWithLyrics, []) :=
  C6_skip_when_lyrics_present cfg0 env0 itemWithLyrics (by decide)

/-- C9: every mapped album record carries the 2-letter code the country table
yields for the artist's country (empty when the lookup misses), `"ma-"`
prefixed album and artist ids, and the fixed data-source tag. -/
theorem C9_album_info_fields (env : Env) (a : MAlbum) :
    (get_album_info env a).country =
      (match env.countries_get a.bands0.country with
        | some c => c.alpha2
        | none => "") ∧
    (get_album_info env a).album_id = ID_PREFIX ++ a.id ∧
    (get_album_info env a).artist_id = ID_PREFIX ++ a.bands0.id ∧
    (get_album_info env a).data_source = DATA_SOURCE := by
  refine ⟨?_, rfl, rfl, rfl⟩
  cases h : env.countries_get a.bands0.country <;> simp [get_album_info, h]


/-- C5: when the direct lyrics fetch returns text `L ≠ ""`, the value stored
on the item is `cfg.instrumental` when `L` is exactly the instrumental
marker, and `L` unchanged otherwise; the effect trace ends with the store. -/
theorem C5_instrumental_substitution (cfg : Config) (env : Env) (item : Item)
    (L : String) (hly : item.lyrics = "")
    (hsrc : _is_source_id item.mb_albumid = true)
    (henv : env.lyrics_for_id ( _strip_prefix item.mb_trackid) = .ok L)
    (hL : L ≠ "") :
    fetch_item_lyrics cfg env item =
      .ok ({ item with lyrics := if L = instrumentalMarker then cfg.instrumental else L },
        [Eff.callLyricsForId ( _strip_prefix item.mb_trackid),
         Eff.setLyrics (if L = instrumentalMarker then cfg.instrumental else L)]
        ++ (if cfg.import_write then [Eff.tryWrite] else []) ++ [Eff.store]) := by
  simp [fetch_item_lyrics, hly, hsrc, henv, fetchTail, hL]

/-- Witness for C5: fetched lyrics equal to the marker are replaced by the
configured `instrumental` string before being stored. -/
theorem C5_instrumental_substitution_witness :
    fetch_item_lyrics cfgC5 envC5 itemSourceTrack =
      .ok ({ itemSourceTrack with
              lyrics := if instrumentalMarker = instrumentalMarker then cfgC5.instrumental
                else instrumentalMarker },
        [Eff.callLyricsForId ( _strip_prefix itemSourceTrack.mb_trackid),
         Eff.setLyrics (if instrumentalMarker = instrumentalMarker then cfgC5.instrumental
           else instrumentalMarker)]
        ++ (if cfgC5.import_write then [Eff.tryWrite] else []) ++ [Eff.store]) :=
  C5_instrumental_substitution cfgC5 envC5 itemSourceTrack instrumentalMarker rfl
    (by decide) rfl (by decide)

/-- C7: for a lyrics-less item whose album id carries the source prefix, the
external call made is the direct lyrics retrieval on the prefix-stripped
track id and never an album search; a network fault there terminates the
track's processing with the item unchanged. -/
theorem C7_direct_fetch (cfg : Config) (env : Env) (item : Item)
    (hly : item.lyrics = "") (hsrc : _is_source_id item.mb_albumid = true) :
    (env.lyrics_for_id ( _strip_prefix item.mb_trackid) = .error () →
      fetch_item_lyrics cfg env item =
        .ok (item, [Eff.callLyricsForId ( _strip_prefix item.mb_trackid)])) ∧
    (∀ it tr, fetch_item_lyrics cfg env item = .ok (it, tr) →
      Eff.callLyricsForId ( _strip_prefix item.mb_trackid) ∈ tr ∧
      ∀ al ar y1 y2, Eff.callAlbumSearchYear al ar y1 y2 ∉ tr) := by
  constructor
  · intro he
    simp [fetch_item_lyrics, hly, hsrc, he]
  · intro it tr heq
    cases he : env.lyrics_for_id ( _strip_prefix item.mb_trackid) with
    | error e =>
      cases e
      simp [fetch_item_lyrics, hly, hsrc, he] at heq
      obtain ⟨-, htr⟩ := heq
      subst htr
      exact ⟨by simp, by intro al ar y1 y2; simp⟩
    | ok l =>
      simp [fetch_item_lyrics, hly, hsrc, he] at heq
      have hm := fetchTail_mem cfg item l
        [Eff.callLyricsForId ( _strip_prefix item.mb_trackid)]
        (Eff.callLyricsForId ( _strip_prefix item.mb_trackid)) (by simp)
      rw [heq] at hm
      refine ⟨hm, fun al ar y1 y2 => ?_⟩
      have hn := fetchTail_no_search cfg item l
        [Eff.callLyricsForId ( _strip_prefix item.mb_trackid)] al ar y1 y2 (by simp)
      rw [heq] at hn
      exact hn

/-- Witness for C7: a source-matched item whose direct fetch faults keeps its
item unchanged after the single lyrics call. -/
theorem C7_direct_fetch_witness :
    fetch_item_lyrics cfg0 env0 itemSourceTrack =
      .ok (itemSourceTrack,
        [Eff.callLyricsForId ( _strip_prefix itemSourceTrack.mb_trackid)]) :=
  (C7_direct_fetch cfg0 env0 itemSourceTrack rfl (by decide)).1 rfl

/-- C10: in the direct lyrics path only the album id is tested for the
prefix; the track id is stripped of its first three characters whatever they
are, and that is the id sent to the lyrics service. -/
theorem C10_trackid_never_checked (cfg : Config) (env : Env) (item : Item)
    (hly : item.lyrics = "") (hsrc : _is_source_id item.mb_albumid = true)
    (htrk : _is_source_id item.mb_trackid = false) :
    fetch_item_lyrics cfg env item ≠ .error () ∧
    ∀ it tr, fetch_item_lyrics cfg env item = .ok (it, tr) →
      tr.head? = some (Eff.callLyricsForId (item.mb_trackid.drop 3)) := by
  have hdrop : _strip_prefix item.mb_trackid = item.mb_trackid.drop 3 := rfl
  cases he : env.lyrics_for_id ( _strip_prefix item.mb_trackid) with
  | error e =>
    cases e
    constructor
    · simp [fetch_item_lyrics, hly, hsrc, he]
    · intro it tr heq
      simp [fetch_item_lyrics, hly, hsrc, he] at heq
      obtain ⟨-, htr⟩ := heq
      subst htr
      rw [← hdrop]
      rfl
  | ok l =>
    constructor
    · simp [fetch_item_lyrics, hly, hsrc, he]
    · intro it tr heq
      simp [fetch_item_lyrics, hly, hsrc, he] at heq
      have hh := fetchTail_head cfg item l
        (Eff.callLyricsForId ( _strip_prefix item.mb_trackid)) []
      rw [heq] at hh
      rw [← hdrop]
      exact hh

/-- Witness for C10: album id `"ma-123"`, track id `"ab-99"` (no prefix): the
id sent to the lyrics service is `"99"`, the track id minus three characters. -/
theorem C10_trackid_never_checked_witness :
    ([Eff.callLyricsForId "99"] : List Eff).head? =
      some (Eff.callLyricsForId (itemOddTrackId.mb_trackid.drop 3)) :=
  (C10_trackid_never_checked cfg0 env0 itemOddTrackId rfl (by decide) (by decide)).2
    itemOddTrackId [Eff.callLyricsForId "99"] rfl

/-- C8: a resolution fault on one search result skips just that result: the
batch still contains the mapped records of all the other results. -/
theorem C8_resolution_fault_skips_one (env : Env) (artist album : String)
    (l1 l2 : List SearchResult) (r : SearchResult)
    (hs : env.album_search album artist = .ok (l1 ++ r :: l2))
    (hr : r.get = .error ()) :
    get_albums env artist album =
      some (resolveResults env l1 ++ resolveResults env l2) := by
  simp [get_albums, hs, resolveResults_append, resolveResults, hr]

/-- Witness for C8: with results good-bad-good, the batch is the two good
records. -/
theorem C8_resolution_fault_skips_one_witness :
    get_albums env8 "BandA" "AlbumA" =
      some (resolveResults env8 [res4a] ++ resolveResults env8 [res4b]) :=
  C8_resolution_fault_skips_one env8 "BandA" "AlbumA" [res4a] [res4b] resBad rfl rfl

/-- C4 counterexample: two candidates are both within distance 0.1 of the
item title; the code fetches lyrics for BOTH (the loop has no break) and
stores the LAST accepted candidate's lyrics `"BBB"`, not the first accepted
candidate's `"AAA"` as the claim states. -/
theorem C4_first_accepted_counterexample :
    acceptedLyrics envC4 itemC4 resultsC4 = ["AAA", "BBB"] ∧
    fetch_item_lyrics cfgC4 envC4 itemC4 =
      .ok ({ itemC4 with lyrics := "BBB" },
        [Eff.callAlbumSearchYear "AlbumA" "BandA" 1986 1986, Eff.callResultGet,
         Eff.callTrackLyrics, Eff.callResultGet, Eff.callTrackLyrics,
         Eff.setLyrics "BBB", Eff.store]) ∧
    ("BBB" : String) ≠ "AAA" :=
  ⟨rfl, rfl, by decide⟩

/-- C4 (amended): a candidate is considered only when it has at least
`item.track` tracks; a candidate at distance greater than 0.1 is rejected and
one at distance at most 0.1 is accepted and has its lyrics fetched — but the
lyrics value that reaches the tail is the LAST accepted candidate's, each
accepted fetch overwriting the previous one (initial value when none is
accepted). -/
theorem C4_last_accepted_wins (env : Env) (item : Item) :
    ∀ (results : List SearchResult) (lyr0 : String) (tr0 : List Eff),
    (∀ r ∈ results, r.get ≠ Except.error ()) →
    (∀ r ∈ results, ∀ album, r.get = Except.ok album →
      item.track ≤ album.tracks.length →
      ∀ trk, album.tracks.get? (item.track - 1) = some trk →
      ¬ env.string_dist item.title trk.title > mkRat 1 10 →
      trk.lyrics ≠ Except.error ()) →
    ∃ tr, searchLoop env item results lyr0 tr0 =
      LoopOut.done ((acceptedLyrics env item results).getLastD lyr0) tr := by
  intro results
  induction results with
  | nil =>
    intro lyr0 tr0 _ _
    exact ⟨tr0, rfl⟩
  | cons r rest ih =>
    intro lyr0 tr0 hget hlyr
    have hget' : ∀ x ∈ rest, x.get ≠ Except.error () :=
      fun x hx => hget x (List.mem_cons_of_mem _ hx)
    have hlyr' := fun x hx => hlyr x (List.mem_cons_of_mem _ hx)
    cases hg : r.get with
    | error e =>
      cases e
      exact absurd hg (hget r (List.mem_cons_self _ _))
    | ok album =>
      by_cases hlen : item.track ≤ album.tracks.length
      · cases htrk : album.tracks.get? (item.track - 1) with
        | none =>
          have hacc : acceptedLyrics env item (r :: rest) = acceptedLyrics env item rest := by
            simp only [acceptedLyrics, List.filterMap_cons, hg, hlen, htrk, if_true]
          have hstep : searchLoop env item (r :: rest) lyr0 tr0 =
              searchLoop env item rest lyr0 (tr0 ++ [Eff.callResultGet]) := by
            simp only [searchLoop, hg, hlen, htrk, if_true]
          rw [hstep, hacc]
          exact ih lyr0 _ hget' hlyr'
        | some trk =>
          by_cases hdist : env.string_dist item.title trk.title > mkRat 1 10
          · have hacc : acceptedLyrics env item (r :: rest) = acceptedLyrics env item rest := by
              simp only [acceptedLyrics, List.filterMap_cons, hg, hlen, htrk, hdist,
                if_true]
            have hstep : searchLoop env item (r :: rest) lyr0 tr0 =
                searchLoop env item rest lyr0 (tr0 ++ [Eff.callResultGet]) := by
              simp only [searchLoop, hg, hlen, htrk, hdist, if_true]
            rw [hstep, hacc]
            exact ih lyr0 _ hget' hlyr'
          · have hl := hlyr r (List.mem_cons_self _ _) album hg hlen trk htrk hdist
            cases hly : trk.lyrics with
            | error e =>
              cases e
              exact absurd hly hl
            | ok l =>
              have hacc : acceptedLyrics env item (r :: rest) =
                  l :: acceptedLyrics env item rest := by
                simp only [acceptedLyrics, List.filterMap_cons, hg, hlen, htrk, hdist,
                  hly, if_true, if_false]
              have hstep : searchLoop env item (r :: rest) lyr0 tr0 =
                  searchLoop env item rest l
                    (tr0 ++ [Eff.callResultGet] ++ [Eff.callTrackLyrics]) := by
                simp only [searchLoop, hg, hlen, htrk, hdist, hly, if_true, if_false]
              rw [hstep, hacc, List.getLastD_cons]
              exact ih l _ hget' hlyr'
      · have hacc : acceptedLyrics env item (r :: rest) = acceptedLyrics env item rest := by
          simp only [acceptedLyrics, List.filterMap_cons, hg, hlen, if_false]
        have hstep : searchLoop env item (r :: rest) lyr0 tr0 =
            searchLoop env item rest lyr0 (tr0 ++ [Eff.callResultGet]) := by
          simp only [searchLoop, hg, hlen, if_false]
        rw [hstep, hacc]
        exact ih lyr0 _ hget' hlyr'

/-- Witness for C4 (amended) on a single accepted candidate with lyrics
`"AAA"`. -/
theorem C4_last_accepted_wins_witness :
    ∃ tr, searchLoop envC4 itemC4 [res4a] "" [] =
      LoopOut.done ((acceptedLyrics envC4 itemC4 [res4a]).getLastD "") tr :=
  C4_last_accepted_wins envC4 itemC4 [res4a] "" [] (by decide)
    (by
      rintro x hx album hg hlen trk htrk hdist
      simp only [List.mem_singleton] at hx
      subst hx
      rw [show res4a.get = Except.ok albumA from rfl] at hg
      injection hg with h
      subst h
      rw [show albumA.tracks.get? (itemC4.track - 1) = some trackA from rfl] at htrk
      injection htrk with h2
      subst h2
      decide)

/-- C1: for every id `x`, `_strip_prefix (_add_prefix x) = x`, and every id
string that does not start with the prefix `"ma-"` is reported by
`_is_source_id` as not belonging to this source. -/
theorem C1_prefix_scheme :
    (∀ x : String, _strip_prefix ( _add_prefix x) = x) ∧
    (∀ id : String, (¬ ∃ rest, id = ID_PREFIX ++ rest) → _is_source_id id = false) := by
  constructor
  · intro x
    unfold _strip_prefix _add_prefix
    apply String.ext
    rw [String.data_drop, String.data_append]
    show List.drop 3 ("ma-".data ++ x.data) = x.data
    rfl
  · intro id h
    by_contra hcon
    rw [Bool.not_eq_false] at hcon
    unfold _is_source_id at hcon
    rw [beq_iff_eq] at hcon
    apply h
    refine ⟨ _strip_prefix id, ?_⟩
    apply String.ext
    rw [String.data_append, ← hcon]
    unfold _strip_prefix
    rw [String.data_drop, String.data_take]
    exact (List.take_append_drop _ _).symm

/-- Witness for C1 at concrete ids. -/
theorem C1_prefix_scheme_witness :
    _strip_prefix ( _add_prefix "123") = "123" ∧ _is_source_id "xyz" = false := by
  refine ⟨C1_prefix_scheme.1 "123", C1_prefix_scheme.2 "xyz" ?_⟩
  rintro ⟨rest, hrest⟩
  have hd : ("xyz" : String).data = ( ID_PREFIX ++ rest).data := congrArg String.data hrest
  rw [String.data_append] at hd
  exact absurd (List.head_eq_of_cons_eq hd) (by decide)

end MetalArchives
